import Mathlib

/-!
Verification of the bean-du/asr scheduling and auth subsystems.

Shallow embedding of the Rust sources:
* `src/schedule/types.rs`      — task data model
* `src/storage/task/sqlite.rs` — the sqlx SQLite store (save_task,
  get_pending_tasks, update_task_status), including the relevant parts of
  SQLite comparison semantics for the literals appearing in its queries
* `src/schedule/scheduler/task_manager.rs` and `worker.rs` — the task
  manager and worker loop (with the storage interface they call modelled
  from the spec, as the implementation of that interface is not in src)
* `src/schedule/callback/mod.rs` — callback dispatch and the broadcast
  event channel
* `src/auth/service.rs`        — API-key verification

Machine integers: the Rust counters are u32/i32/u64 and never approach
their bounds in any statement proved here, so they are modelled as `Nat`
(no wrap-around is exercised).  Instants are modelled as `Nat` seconds for
the scheduler and store (RFC3339 text of UTC instants compares
lexicographically exactly as the instants compare, so the TEXT timestamp
columns are order-isomorphic to their instants) and as `Rat` seconds for
the rate limiter, whose refill arithmetic is fractional.
-/

deriving instance DecidableEq for Except

namespace Asr

/-! ## Data model (src/schedule/types.rs) -/

inductive TaskType
  | Transcribe
  | VoiceprintRecognition
  | NoiseReduction
deriving DecidableEq, Repr

/-- Rust `enum TaskPriority` with derived discriminants
Critical=0, High=1, Normal=2, Low=3 (used by `priority as i32`). -/
inductive TaskPriority
  | Critical
  | High
  | Normal
  | Low
deriving DecidableEq, Repr

inductive TaskStatus
  | Pending
  | Processing
  | Completed
  | Failed (msg : String)
  | Retrying
  | TimedOut
deriving DecidableEq, Repr

/-- `CallbackType` (serde-tagged enum in the source). -/
inductive CallbackType
  | Http (url : String)
  | Function (name : String)
  | Event
  | None
deriving DecidableEq, Repr

structure TranscribeParams where
  language : Option String
  speaker_diarization : Bool
  emotion_recognition : Bool
  filter_dirty_words : Bool
deriving DecidableEq, Repr

inductive TaskParams
  | Transcribe (p : TranscribeParams)
  | VoiceprintRecognition
  | NoiseReduction
deriving DecidableEq, Repr

structure TaskConfig where
  task_type : TaskType
  input_path : String
  callback_type : CallbackType
  params : TaskParams
  priority : TaskPriority
  retry_count : Nat
  max_retries : Nat
  timeout : Option Nat
deriving DecidableEq, Repr

inductive TaskResultM
  | Transcribe (text : String)
  | VoiceprintRecognition
  | NoiseReduction
deriving DecidableEq, Repr

/-- Rust `Task`; timestamps as `Nat` seconds since the epoch. -/
structure Task where
  id : String
  status : TaskStatus
  config : TaskConfig
  created_at : Nat
  updated_at : Nat
  started_at : Option Nat
  completed_at : Option Nat
  result : Option TaskResultM
  error : Option String
deriving DecidableEq, Repr

/-! ## serde_json serialization of `TaskStatus`

`save_task` and `update_task_status` bind
`serde_json::to_string(&task.status)` into TEXT columns.  serde renders a
unit variant as a JSON string (quotes included) and the `Failed(String)`
variant as a one-key object. -/

/-- serde_json string escaping for the characters that matter here. -/
def json_escape_char (c : Char) : String :=
  if c = '"' then "\\\""
  else if c = '\\' then "\\\\"
  else if c = '\n' then "\\n"
  else if c = '\t' then "\\t"
  else if c = '\r' then "\\r"
  else String.singleton c

def json_string (s : String) : String :=
  "\"" ++ String.join (s.data.map json_escape_char) ++ "\""

/-- `serde_json::to_string(&status)`: the exact TEXT stored in the
`status` column.  Note the quotes: `Pending` is stored as the 9-character
text `"Pending"`. -/
def status_json : TaskStatus → String
  | .Pending => "\"Pending\""
  | .Processing => "\"Processing\""
  | .Completed => "\"Completed\""
  | .Failed msg => "\x7b\"Failed\":" ++ json_string msg ++ "\x7d"
  | .Retrying => "\"Retrying\""
  | .TimedOut => "\"TimedOut\""

/-! ## SQLite value semantics

The fragments of SQLite comparison semantics exercised by the queries in
`sqlite.rs`: comparing an INTEGER-affinity column against a text literal
that is not numeric leaves the literal TEXT, and values of distinct
storage classes are never equal (`INTEGER < TEXT` in the storage-class
order).  A `CASE x WHEN v`... with no matching arm and no ELSE yields
NULL, and NULL sorts before every other value under ASC. -/

inductive SqlValue
  | null
  | int (i : Int)
  | text (s : String)
deriving DecidableEq, Repr

/-- SQLite equality as used in WHERE / CASE WHEN (NULL never matches). -/
def sql_eqv : SqlValue → SqlValue → Bool
  | .null, _ => false
  | _, .null => false
  | .int i, .int j => i = j
  | .text s, .text t => s = t
  | .int _, .text _ => false
  | .text _, .int _ => false

/-- SQLite ORDER BY ASC ordering: NULL first, then numeric, then text. -/
def sql_le : SqlValue → SqlValue → Bool
  | .null, _ => true
  | _, .null => false
  | .int i, .int j => i ≤ j
  | .int _, .text _ => true
  | .text _, .int _ => false
  | .text s, .text t => s ≤ t

/-- One row of the `tasks` table created by `SqliteTaskStorage::new`.
The TEXT timestamp columns hold RFC3339 renderings of UTC instants; since
that rendering is strictly monotone, they are carried here as the instants
themselves. -/
structure Row where
  id : String
  status : String
  config : String
  created_at : Nat
  updated_at : Nat
  started_at : Option Nat
  completed_at : Option Nat
  result : Option String
  error : Option String
  priority : SqlValue
  retry_count : Nat
deriving DecidableEq, Repr

/-- `priority as i32` on the derived discriminants. -/
def priority_code : TaskPriority → Int
  | .Critical => 0
  | .High => 1
  | .Normal => 2
  | .Low => 3

/-- An opaque stand-in for `serde_json::to_string(&task.config)`; no query
in `sqlite.rs` ever reads the `config` column back into a comparison. -/
def config_json (c : TaskConfig) : String :=
  json_string c.input_path ++ json_string (toString (priority_code c.priority))

/-- `SqliteTaskStorage::save_task`: the INSERT binding each column. -/
def save_task (t : Task) : Row :=
  { id := t.id
    status := status_json t.status
    config := config_json t.config
    created_at := t.created_at
    updated_at := t.updated_at
    started_at := t.started_at
    completed_at := t.completed_at
    result := t.result.map (fun _ => "result")
    error := t.error
    priority := .int (priority_code t.config.priority)
    retry_count := t.config.retry_count }

/-- The `CASE priority WHEN 'Critical' THEN 1 ... END` expression of
`get_pending_tasks`.  The `priority` column is INTEGER and the WHEN arms
are text, so under SQLite affinity rules no arm ever matches and the CASE
has no ELSE. -/
def case_priority (v : SqlValue) : SqlValue :=
  if sql_eqv v (.text "Critical") then .int 1
  else if sql_eqv v (.text "High") then .int 2
  else if sql_eqv v (.text "Normal") then .int 3
  else if sql_eqv v (.text "Low") then .int 4
  else .null

/-- The ORDER BY of `get_pending_tasks`: the CASE expression first, then
`created_at` ascending. -/
def pending_order_le (r1 r2 : Row) : Bool :=
  let k1 := case_priority r1.priority
  let k2 := case_priority r2.priority
  if k1 = k2 then r1.created_at ≤ r2.created_at else sql_le k1 k2

def ins_by {α : Type} (le : α → α → Bool) (x : α) : List α → List α
  | [] => [x]
  | y :: ys => if le x y then x :: y :: ys else y :: ins_by le x ys

def sort_by {α : Type} (le : α → α → Bool) : List α → List α
  | [] => []
  | x :: xs => ins_by le x (sort_by le xs)

/-- `SqliteTaskStorage::get_pending_tasks`:
`SELECT * FROM tasks WHERE status = 'Pending' ORDER BY CASE priority ...,
created_at ASC LIMIT ?`.  The WHERE compares the stored status TEXT
against the 7-character literal `Pending`. -/
def get_pending_tasks (rows : List Row) (limit : Nat) : List Row :=
  (sort_by pending_order_le
    (rows.filter (fun r => sql_eqv (.text r.status) (.text "Pending")))).take limit

/-- `SqliteTaskStorage::update_task_status`: the UPDATE with its two CASE
expressions, each comparing the bound serde_json status text against the
literals `'Processing'` / `'Completed'`. -/
def update_task_status (rows : List Row) (task_id : String) (status : TaskStatus)
    (now : Nat) : List Row :=
  let status_str := status_json status
  rows.map fun r =>
    if r.id = task_id then
      { r with
        status := status_str
        updated_at := now
        started_at :=
          if sql_eqv (.text status_str) (.text "Processing") ∧ r.started_at = none
          then some now else r.started_at
        completed_at :=
          if sql_eqv (.text status_str) (.text "Completed")
          then some now else r.completed_at }
    else r

/-! Fixtures for the store-level claims. -/

def fixture_config (ty : TaskType) (cb : CallbackType) (prio : TaskPriority)
    (maxr : Nat) : TaskConfig :=
  { task_type := ty
    input_path := "./test_data/test.wav"
    callback_type := cb
    params := .Transcribe ⟨some "zh", false, false, false⟩
    priority := prio
    retry_count := 0
    max_retries := maxr
    timeout := some 300 }

def fixture_task (id : String) (created : Nat) (c : TaskConfig) : Task :=
  { id := id
    status := .Pending
    config := c
    created_at := created
    updated_at := created
    started_at := none
    completed_at := none
    result := none
    error := none }

/-- The four tasks of the priority scenario, submitted in the order
Low, Critical, Normal, High. -/
def four_priority_rows : List Row :=
  [ save_task (fixture_task "task-a" 0 (fixture_config .Transcribe (.Http "http://cb") .Low 3))
  , save_task (fixture_task "task-b" 1 (fixture_config .Transcribe (.Http "http://cb") .Critical 3))
  , save_task (fixture_task "task-c" 2 (fixture_config .Transcribe (.Http "http://cb") .Normal 3))
  , save_task (fixture_task "task-d" 3 (fixture_config .Transcribe (.Http "http://cb") .High 3)) ]

theorem status_json_ne_pending (s : TaskStatus) : status_json s ≠ "Pending" := by
  cases s
  case Failed msg =>
    intro h
    have hl := congrArg String.length h
    simp only [status_json] at hl
    rw [String.length_append, String.length_append] at hl
    have h1 : ("\x7b\"Failed\":" : String).length = 10 := rfl
    have h2 : ("\x7d" : String).length = 1 := rfl
    have h3 : ("Pending" : String).length = 7 := rfl
    omega
  all_goals decide

/-- No row written by `save_task` ever satisfies `status = 'Pending'`. -/
theorem get_pending_tasks_of_saved_empty (tasks : List Task) (limit : Nat) :
    get_pending_tasks (tasks.map save_task) limit = [] := by
  have hfilter :
      (tasks.map save_task).filter
        (fun r => sql_eqv (.text r.status) (.text "Pending")) = [] := by
    induction tasks with
    | nil => rfl
    | cons t ts ih =>
      simp only [List.map_cons, List.filter_cons]
      have hne : sql_eqv (.text (save_task t).status) (.text "Pending") = false := by
        simp only [sql_eqv, save_task]
        exact decide_eq_false (status_json_ne_pending t.status)
      simp [hne, ih]
  simp [get_pending_tasks, hfilter, sort_by]

/-! ## TaskManager and worker (src/schedule/scheduler/)

`TaskManager` talks to its store through `create` / `update` / `get` /
`get_pending_by_priority` / `get_timeouted` / `cleanup_old` /
`get_by_status` / `delete`.  The implementation of that interface is not
under src (only its callers and its tests are), so it is modelled from the
spec here; each definition's doc comment says which spec operation it
follows. -/

/-- `Completed`, `Failed`, `TimedOut` are the terminal states. -/
def is_terminal : TaskStatus → Bool
  | .Completed => true
  | .Failed _ => true
  | .TimedOut => true
  | _ => false

/-- Modelled from the spec: `get(id) -> option<Task>` of the storage
interface used by `TaskManager` (its implementation is missing from src).
The store is a list of rows with unique ids. -/
def store_get (store : List Task) (id : String) : Option Task :=
  store.find? (fun t => t.id = id)

/-- Modelled from the spec: `insert(task) / upsert(task)` — "write a new
task row or idempotently update an existing one keyed by `id`. On upsert,
the mutable columns (status, updated_at, started_at, completed_at, result,
error, retry_count) are overwritten; immutable columns (id, created_at)
are preserved. The config column MAY be rewritten as a whole."  This is
the `create` call of the storage interface used by `TaskManager` and
`TaskWorker`; the worker's completion write and `update_task_priority`
both require it to update existing rows. -/
def store_upsert (store : List Task) (t : Task) : List Task :=
  if (store.find? (fun u => u.id = t.id)).isSome then
    store.map (fun u => if u.id = t.id then { t with created_at := u.created_at } else u)
  else
    store ++ [t]

/-- Modelled from the spec: `update_status(id, new_status)` — "Sets
`updated_at=now`; sets `started_at=now` on the Pending→Processing edge iff
`started_at` is still unset; sets `completed_at=now` on entry to any
terminal state iff still unset."  This is the `update` call of the storage
interface used by `TaskManager`. -/
def store_update_status (store : List Task) (id : String) (s : TaskStatus)
    (now : Nat) : List Task :=
  store.map fun u =>
    if u.id = id then
      { u with
        status := s
        updated_at := now
        started_at :=
          if s = .Processing ∧ u.status = .Pending ∧ u.started_at = none
          then some now else u.started_at
        completed_at :=
          if is_terminal s ∧ u.completed_at = none
          then some now else u.completed_at }
    else u

/-- Priority rank with Critical first, as in the spec's ordering
"(Critical < High < Normal < Low — Critical served first)". -/
def priority_rank : TaskPriority → Nat
  | .Critical => 0
  | .High => 1
  | .Normal => 2
  | .Low => 3

def pending_le (t u : Task) : Bool :=
  if priority_rank t.config.priority = priority_rank u.config.priority
  then t.created_at ≤ u.created_at
  else priority_rank t.config.priority < priority_rank u.config.priority

/-- Modelled from the spec: the priority-ordered pending read
(`get_pending_by_priority` of the storage interface used by
`TaskManager`): up to `limit` tasks with `status=Pending` ordered by
priority (Critical first) then `created_at` ascending.  Per the repo's own
storage tests it is a pure read; the Processing marking is done by the
caller (`TaskManager.get_next_task`). -/
def get_pending_by_priority (store : List Task) (limit : Nat) : List Task :=
  (sort_by pending_le (store.filter (fun t => t.status = .Pending))).take limit

/-- The in-memory `ProcessingInfo` of `TaskManager.processing_tasks`. -/
structure ProcInfo where
  status : TaskStatus
  started_at : Nat
  attempts : Nat
deriving DecidableEq, Repr

/-! Broadcast world: a name supply for tokio broadcast channels plus the
receivers currently subscribed, with the events each has received.
`tokio::sync::broadcast::Sender::send` returns an error when the channel
has no receivers. -/

structure BReceiver where
  rid : Nat
  chan : Nat
  queue : List String
deriving DecidableEq, Repr

structure BWorld where
  next_chan : Nat
  receivers : List BReceiver
deriving DecidableEq, Repr

/-- `sender.send(ev)`: delivers to every receiver subscribed to the
channel; errs (second component `false`) when there are none. -/
def broadcast_send (w : BWorld) (c : Nat) (ev : String) : BWorld × Bool :=
  if w.receivers.any (fun r => r.chan = c) then
    ({ w with
       receivers := w.receivers.map fun r =>
         if r.chan = c then { r with queue := r.queue ++ [ev] } else r },
     true)
  else (w, false)

/-- `EventCallback::new(capacity)` (src/schedule/callback/mod.rs):
creates a broadcast channel and returns the sender's channel together with
a subscribed receiver.  (The bounded buffer is not modelled; no statement
here fills it.) -/
def event_callback_new (w : BWorld) : Nat × BReceiver × BWorld :=
  let c := w.next_chan
  let r : BReceiver := { rid := c, chan := c, queue := [] }
  (c, r, { next_chan := c + 1, receivers := w.receivers ++ [r] })

/-- The manual `Clone for EventCallback` at the bottom of
task_manager.rs: `let (sender, _) = tokio::sync::broadcast::channel(10)` —
a brand-new channel with no receivers, ignoring `self`. -/
def event_callback_clone (w : BWorld) : Nat × BWorld :=
  (w.next_chan, { w with next_chan := w.next_chan + 1 })

/-- Externally observable callback emissions (HTTP POSTs and in-process
function invocations). -/
inductive CbEvent
  | http_post (url : String) (task_id : String) (status : TaskStatus)
  | function_call (name : String) (task_id : String)
deriving DecidableEq, Repr

/-- The mutable state shared by `TaskManager` and its workers: the
(spec-modelled) store, the in-memory `processing_tasks` map, the function
callback registry (names only), the channel of the manager's
`event_callback`, the broadcast world, and the trace of emitted callback
events. -/
structure MState where
  store : List Task
  processing : List (String × ProcInfo)
  funcs : List String
  ec_chan : Nat
  world : BWorld
  events : List CbEvent
deriving DecidableEq, Repr

/-- `TaskManager::handle_callback`.  `http_ok` is the oracle for the
outcome of the HTTP POST (reqwest errors propagate as `Err`).  The `Event`
arm clones `self.event_callback` — which, per the manual `Clone`
implementation, fabricates a brand-new channel — and then sends on the
clone.  Emitted payload data (the unwrapped result / the error string) is
not modelled beyond the status tag. -/
def handle_callback (http_ok : Bool) (st : MState) (t : Task) :
    MState × Except String Unit :=
  match t.config.callback_type with
  | .Http url =>
    match t.status with
    | .Completed =>
      ({ st with events := st.events ++ [.http_post url t.id .Completed] },
       if http_ok then .ok () else .error "http send failed")
    | .Failed e =>
      ({ st with events := st.events ++ [.http_post url t.id (.Failed e)] },
       if http_ok then .ok () else .error "http send failed")
    | _ => (st, .ok ())
  | .Function name =>
    if st.funcs.contains name then
      match t.status with
      | .Completed =>
        ({ st with events := st.events ++ [.function_call name t.id] }, .ok ())
      | .Failed _ =>
        ({ st with events := st.events ++ [.function_call name t.id] }, .ok ())
      | _ => (st, .ok ())
    else (st, .error "Callback function not found")
  | .Event =>
    let (c, w1) := event_callback_clone st.world
    match t.status with
    | .Completed =>
      let (w2, sent) := broadcast_send w1 c ("Completed:" ++ t.id)
      ({ st with world := w2 },
       if sent then .ok () else .error "broadcast send: no receivers")
    | .Failed e =>
      let (w2, sent) := broadcast_send w1 c ("Failed:" ++ t.id ++ ":" ++ e)
      ({ st with world := w2 },
       if sent then .ok () else .error "broadcast send: no receivers")
    | _ => ({ st with world := w1 }, .ok ())
  | .None => (st, .ok ())

/-- `duration.num_minutes() > 30` of `cleanup_stale_tasks`. -/
def is_stale (now : Nat) (info : ProcInfo) : Bool :=
  (now - info.started_at) / 60 > 30

/-- `TaskManager::cleanup_stale_tasks`: drops processing-map entries older
than 30 minutes and marks those tasks TimedOut in the store. -/
def cleanup_stale_tasks (st : MState) (now : Nat) : MState :=
  let to_remove := st.processing.filter (fun p => is_stale now p.2)
  { st with
    processing := st.processing.filter (fun p => ¬ is_stale now p.2)
    store := to_remove.foldl
      (fun s p => store_update_status s p.1 .TimedOut now) st.store }

/-- The `for task in pending_tasks` loop body of `get_next_task`: the
first pending task not already tracked in the processing map. -/
def find_claimable (processing : List (String × ProcInfo)) :
    List Task → Option Task
  | [] => none
  | t :: ts =>
    if (processing.lookup t.id).isSome then find_claimable processing ts
    else some t

/-- `TaskManager::get_next_task` (the whole body runs under the
`processing_tasks` mutex, so calls are serialized): stale cleanup, a
priority-ordered pending read, then for the first unclaimed task — insert
it into the in-memory map as Processing, `update` its status to Processing
in the store, set `started_at` on a local copy, and `create` (upsert) that
local copy — whose `status` field is still the claimed `Pending` — back
into the store, returning the local copy. -/
def get_next_task (st : MState) (now : Nat) : MState × Option Task :=
  let st1 := cleanup_stale_tasks st now
  let pending := get_pending_by_priority st1.store 10
  match find_claimable st1.processing pending with
  | none => (st1, none)
  | some t =>
    let info : ProcInfo := { status := .Processing, started_at := now, attempts := 1 }
    let store1 := store_update_status st1.store t.id .Processing now
    let t' := { t with started_at := some now }
    let store2 := store_upsert store1 t'
    ({ st1 with processing := (t.id, info) :: st1.processing, store := store2 },
     some t')

/-- `TaskManager::handle_task_error`: keyed on the in-memory map — if the
in-memory `attempts` is below `max_retries`, bump `attempts` (in memory
only) and `update` the store status to Retrying; otherwise `update` it to
`Failed(error)` and drop the map entry.  The persisted `retry_count`
column is not touched on either path. -/
def handle_task_error (st : MState) (t : Task) (error : String) (now : Nat) :
    MState :=
  match st.processing.lookup t.id with
  | none => st
  | some info =>
    if info.attempts < t.config.max_retries then
      { st with
        processing := st.processing.map fun p =>
          if p.1 = t.id then (p.1, { info with attempts := info.attempts + 1 }) else p
        store := store_update_status st.store t.id .Retrying now }
    else
      { st with
        processing := st.processing.filter (fun p => ¬ p.1 = t.id)
        store := store_update_status st.store t.id (.Failed error) now }

/-- `TaskManager::process_task`: look up the processor for the task's
kind, run it; on failure call `handle_task_error` and propagate the fixed
message "Task processing failed". -/
def process_task (procs : List (TaskType × (Task → Except String TaskResultM)))
    (st : MState) (t : Task) (now : Nat) : MState × Except String TaskResultM :=
  match procs.lookup t.config.task_type with
  | none => (st, .error "No processor found for task type")
  | some p =>
    match p t with
    | .ok r => (st, .ok r)
    | .error e => (handle_task_error st t e now, .error "Task processing failed")

/-- `TaskWorker::process_next_task` for a worker bound to `kind`:
`get_next_task` claims globally (it takes no kind); a task whose
`task_type` differs from the worker's kind makes the worker return
`Ok(false)` at once.  On success the worker upserts the Completed row and
then lets `handle_callback` run (its error is only logged); on failure it
upserts a `Failed("Task processing failed")` row and fires nothing. -/
def process_next_task (procs : List (TaskType × (Task → Except String TaskResultM)))
    (http_ok : Bool) (kind : TaskType) (st : MState) (now : Nat) :
    MState × Except String Bool :=
  match get_next_task st now with
  | (st1, none) => (st1, .ok false)
  | (st1, some t) =>
    if t.config.task_type = kind then
      match process_task procs st1 t now with
      | (st2, .ok r) =>
        let t' := { t with
          result := some r, status := .Completed,
          completed_at := some now, updated_at := now }
        let st3 := { st2 with store := store_upsert st2.store t' }
        let (st4, _cb) := handle_callback http_ok st3 t'
        (st4, .ok true)
      | (st2, .error e) =>
        let t' := { t with status := .Failed e, updated_at := now }
        ({ st2 with store := store_upsert st2.store t' }, .ok true)
    else (st1, .ok false)

/-! ## CredentialGate (src/auth/) -/

inductive Permission
  | Transcribe
  | SpeakerDiarization
  | EmotionRecognition
  | Admin
deriving DecidableEq, Repr

inductive KeyStatus
  | Active
  | Suspended
  | Expired
deriving DecidableEq, Repr

structure RateLimit where
  requests_per_minute : Nat
  requests_per_hour : Nat
  requests_per_day : Nat
deriving DecidableEq, Repr

/-- `ApiKeyInfo`; instants as `Nat` seconds since the epoch. -/
structure ApiKeyInfo where
  key : String
  name : String
  created_at : Nat
  expires_at : Option Nat
  permissions : List Permission
  rate_limit : RateLimit
  status : KeyStatus
deriving DecidableEq, Repr

/-- `ApiKeyStats`; the per-day map keyed by the day number
(`date_naive().to_string()` is in bijection with the day, and its
lexicographic order matches day order). -/
structure ApiKeyStats where
  total_requests : Nat
  requests_today : Nat
  last_used_at : Nat
  requests_per_day : List (Nat × Nat)
deriving DecidableEq, Repr

/-- `ApiKeyStats::update` at instant `now`: bump totals, stamp last-used,
bump today's bucket, prune dates older than 30 days. -/
def stats_update (s : ApiKeyStats) (now : Nat) : ApiKeyStats :=
  let today : Nat := now / 86400
  let bumped :=
    if (s.requests_per_day.lookup today).isSome then
      s.requests_per_day.map (fun p => if p.1 = today then (p.1, p.2 + 1) else p)
    else
      s.requests_per_day ++ [(today, 1)]
  { total_requests := s.total_requests + 1
    requests_today := (bumped.lookup today).getD 0
    last_used_at := now
    requests_per_day := bumped.filter (fun p => today - 30 ≤ p.1) }

/-- Modelled from the spec: the per-key limiter built by
`RateLimiter::direct(Quota::per_minute(rpm))` from the governor crate
(external dependency, not in src) — "a per-key token bucket implementing
the requests_per_minute cap. Refill is continuous at `rpm/60` tokens per
second, capacity = `rpm`."  Tokens are counted in sixtieths of a token
(`tokens60`), so that at integer-second instants the continuous refill of
`rpm/60` tokens per second is the exact integer `Δ·rpm` sixtieths. -/
structure Bucket where
  tokens60 : Nat
  last : Nat
deriving DecidableEq, Repr

/-- A limiter fresh from `RateLimiter::direct`: a full bucket
(`rpm` tokens = `60·rpm` sixtieths). -/
def bucket_new (rpm : Nat) (now : Nat) : Bucket :=
  { tokens60 := 60 * rpm, last := now }

/-- `limiter.check()` at instant `now`: refill continuously at `rpm/60`
tokens per second capped at `rpm` tokens, then consume one token
(60 sixtieths) if available. -/
def bucket_check (rpm : Nat) (b : Bucket) (now : Nat) : Bucket × Bool :=
  let t := min (60 * rpm) (b.tokens60 + (now - b.last) * rpm)
  if 60 ≤ t then ({ tokens60 := t - 60, last := now }, true)
  else ({ tokens60 := t, last := now }, false)

inductive AuthError
  | InvalidApiKey
  | MissingApiKey
  | KeyExpired
  | KeySuspended
  | InsufficientPermissions
  | RateLimitExceeded
  | StorageError (msg : String)
deriving DecidableEq, Repr

/-- The outcome of a `verify_api_key` call; `panicked` is the
`NonZeroU32::new(...).unwrap()` panic (no value is returned at all). -/
inductive VerifyResult
  | ok
  | err (e : AuthError)
  | panicked
deriving DecidableEq, Repr

structure AuthState where
  keys : List (String × ApiKeyInfo)
  limiters : List (String × Bucket)
  stats : List (String × ApiKeyStats)
deriving DecidableEq, Repr

/-- Rust `split(" ")` over the characters: pieces between the single-space
separators, with empty pieces kept (an empty input yields one empty
piece). -/
def split_on_space : List Char → List String
  | [] => [""]
  | c :: cs =>
    let r := split_on_space cs
    if c = ' ' then "" :: r
    else (String.singleton c ++ r.headD "") :: r.tail

/-- `api_key.split(" ").last()` — the iterator always yields at least one
(possibly empty) piece, so `last()` is always `Some`. -/
def last_space_token (s : String) : String :=
  (split_on_space s.data).getLastD ""

/-- `Auth::update_key_stats` on the stats table: read-or-new (`ApiKeyStats::new`),
`update`, write back. -/
def stats_bump (stats : List (String × ApiKeyStats)) (key : String) (now : Nat) :
    List (String × ApiKeyStats) :=
  let s := (stats.lookup key).getD
    { total_requests := 0, requests_today := 0, last_used_at := now,
      requests_per_day := [] }
  let s' := stats_update s now
  if (stats.lookup key).isSome then
    stats.map (fun p => if p.1 = key then (p.1, s') else p)
  else stats ++ [(key, s')]

/-- `Auth::update_key_stats`. -/
def auth_update_key_stats (st : AuthState) (key : String) (now : Nat) :
    AuthState :=
  { st with stats := stats_bump st.stats key now }

/-- `if let Some(expires_at) = key_info.expires_at { expires_at < now }`. -/
def expired_at (e : Option Nat) (now : Nat) : Bool :=
  match e with
  | some x => x < now
  | none => false

/-- `Auth::verify_api_key(api_key, required_permission)` at instant
`now`.  The limiter map's entry is created on first use with
`NonZeroU32::new(rate_limit.requests_per_minute).unwrap()`, which panics
when `requests_per_minute = 0`. -/
def verify_api_key (st : AuthState) (api_key : Option String)
    (perm : Permission) (now : Nat) : VerifyResult × AuthState :=
  match api_key with
  | none => (.err .MissingApiKey, st)
  | some raw =>
    let key := last_space_token raw
    match st.keys.lookup key with
    | none => (.err .InvalidApiKey, st)
    | some info =>
      match info.status with
      | .Suspended => (.err .KeySuspended, st)
      | .Expired => (.err .KeyExpired, st)
      | .Active =>
        if expired_at info.expires_at now then
          (.err .KeyExpired, st)
        else if perm ∉ info.permissions then
          (.err .InsufficientPermissions, st)
        else
          match st.limiters.lookup key with
          | some b =>
            let (b', allowed) := bucket_check info.rate_limit.requests_per_minute b now
            let st1 := { st with
              limiters := st.limiters.map (fun p => if p.1 = key then (p.1, b') else p) }
            if allowed then (.ok, auth_update_key_stats st1 key now)
            else (.err .RateLimitExceeded, st1)
          | none =>
            if info.rate_limit.requests_per_minute = 0 then (.panicked, st)
            else
              let (b', allowed) := bucket_check info.rate_limit.requests_per_minute
                (bucket_new info.rate_limit.requests_per_minute now) now
              let st1 := { st with limiters := st.limiters ++ [(key, b')] }
              if allowed then (.ok, auth_update_key_stats st1 key now)
              else (.err .RateLimitExceeded, st1)

/-- `Auth::create_api_key`: stamps `created_at=now`, sets
`expires_at = now + days·86400` when `expires_in_days` is given, status
Active.  Accepts any `rate_limit`, including `requests_per_minute = 0`. -/
def create_api_key (st : AuthState) (key : String) (name : String)
    (permissions : List Permission) (rate_limit : RateLimit)
    (expires_in_days : Option Nat) (now : Nat) : ApiKeyInfo × AuthState :=
  let info : ApiKeyInfo :=
    { key := key
      name := name
      created_at := now
      expires_at := expires_in_days.map (fun d => now + d * 86400)
      permissions := permissions
      rate_limit := rate_limit
      status := .Active }
  (info, { st with keys := st.keys ++ [(key, info)] })

/-- Reference ladder following the spec's words for `verify` (§4.2), used
to compare `verify_api_key` against the spec: absent key → MissingApiKey;
take the last whitespace-separated token; unknown → InvalidApiKey;
Suspended → KeySuspended; status Expired OR (`expires_at` set AND past) →
KeyExpired; missing permission → InsufficientPermissions; token-bucket
refusal → RateLimitExceeded; otherwise Ok. -/
def spec_verify (st : AuthState) (api_key : Option String)
    (perm : Permission) (now : Nat) : VerifyResult :=
  match api_key with
  | none => .err .MissingApiKey
  | some raw =>
    let key := last_space_token raw
    match st.keys.lookup key with
    | none => .err .InvalidApiKey
    | some info =>
      if info.status = .Suspended then .err .KeySuspended
      else if info.status = .Expired ∨ expired_at info.expires_at now
      then .err .KeyExpired
      else if perm ∉ info.permissions then .err .InsufficientPermissions
      else
        let b := (st.limiters.lookup key).getD
          (bucket_new info.rate_limit.requests_per_minute now)
        if (bucket_check info.rate_limit.requests_per_minute b now).2
        then .ok
        else .err .RateLimitExceeded

/-! ## Fixtures for the scheduler claims -/

/-- A processor that always fails (nonexistent input path). -/
def fail_proc : Task → Except String TaskResultM :=
  fun _ => .error "No such file or directory"

/-- A processor that always succeeds. -/
def ok_proc : Task → Except String TaskResultM :=
  fun _ => .ok (.Transcribe "hello")

def procs_fail : List (TaskType × (Task → Except String TaskResultM)) :=
  [(.Transcribe, fail_proc)]

def procs_ok : List (TaskType × (Task → Except String TaskResultM)) :=
  [(.Transcribe, ok_proc)]

/-- A manager state over the given store, nothing in flight, the
`event_callback` created by `TaskManager::new` subscribed as channel 0. -/
def mstate0 (ts : List Task) : MState :=
  { store := ts
    processing := []
    funcs := []
    ec_chan := 0
    world := { next_chan := 1, receivers := [{ rid := 0, chan := 0, queue := [] }] }
    events := [] }

def c2_task : Task :=
  fixture_task "task-0" 0 (fixture_config .Transcribe (.Http "http://cb") .Normal 3)

def c8_task : Task :=
  fixture_task "task-n" 0 (fixture_config .NoiseReduction (.Http "http://cb") .Normal 3)

def four_priority_tasks : List Task :=
  [ fixture_task "task-a" 0 (fixture_config .Transcribe (.Http "http://cb") .Low 3)
  , fixture_task "task-b" 1 (fixture_config .Transcribe (.Http "http://cb") .Critical 3)
  , fixture_task "task-c" 2 (fixture_config .Transcribe (.Http "http://cb") .Normal 3)
  , fixture_task "task-d" 3 (fixture_config .Transcribe (.Http "http://cb") .High 3) ]

/-! ## Claim theorems -/

/-- C1: `get_pending_tasks` returns, for every limit, the empty list on
the store holding the four pending tasks of the priority scenario
(submitted Low, Critical, Normal, High) as written by `save_task` — the
stored status text is the serde-quoted `"Pending"`, which never equals the
query's literal `'Pending'` — so a worker draining this store processes
nothing at all, not the claimed Critical, High, Normal, Low order.  (Even
with matching rows, `CASE priority WHEN 'Critical'...` compares the
INTEGER priority column against text and never matches, so the ordering
would degrade to `created_at` alone.) -/
theorem c1_get_pending_tasks_returns_nothing (limit : Nat) :
    get_pending_tasks (four_priority_tasks.map save_task) limit = [] :=
  get_pending_tasks_of_saved_empty four_priority_tasks limit

/-- C1 witness: the scenario store concretely, at limit 10: the four
saved rows exist, yet the pending query yields nothing. -/
theorem c1_get_pending_tasks_returns_nothing_witness :
    (four_priority_tasks.map save_task).length = 4 ∧
    get_pending_tasks (four_priority_tasks.map save_task) 10 = [] :=
  ⟨by decide, c1_get_pending_tasks_returns_nothing 10⟩

/-- C5: on a freshly saved Pending row, `update_task_status` to
Processing stamps `updated_at` but leaves `started_at` NULL (the bound
parameter is the quoted serde text `"Processing"`, never equal to the
literal `'Processing'`), and a subsequent transition to Completed — or a
direct transition to Failed — leaves `completed_at` NULL, contradicting
the claim that these timestamps are set on those edges. -/
theorem c5_update_task_status_never_stamps_started_or_completed :
    (update_task_status
        [save_task (fixture_task "t0" 0 (fixture_config .Transcribe (.Http "http://cb") .Normal 3))]
        "t0" .Processing 99).map (fun r => (r.status, r.updated_at, r.started_at))
      = [("\"Processing\"", 99, none)] ∧
    (update_task_status
        (update_task_status
          [save_task (fixture_task "t0" 0 (fixture_config .Transcribe (.Http "http://cb") .Normal 3))]
          "t0" .Processing 99)
        "t0" .Completed 100).map (fun r => (r.completed_at, r.started_at))
      = [(none, none)] ∧
    (update_task_status
        [save_task (fixture_task "t0" 0 (fixture_config .Transcribe (.Http "http://cb") .Normal 3))]
        "t0" (.Failed "boom") 99).map Row.completed_at
      = [none] := by
  decide

/-- C2: one worker poll on a store holding a single pending task with
`max_retries = 3` and a permanently failing processor.  After the poll the
persisted record is already `Failed "Task processing failed"` (the worker
overwrites the Retrying status `handle_task_error` had just written) with
persisted `retry_count = 0` — not 3 — and a second poll finds nothing to
do and changes nothing: the task is never retried. -/
theorem c2_failing_task_persists_failed_with_retry_count_zero :
    ((store_get (process_next_task procs_fail true .Transcribe (mstate0 [c2_task]) 10).1.store
        "task-0").map (fun t => (t.status, t.config.retry_count)))
      = some (.Failed "Task processing failed", 0) ∧
    (process_next_task procs_fail true .Transcribe
        (process_next_task procs_fail true .Transcribe (mstate0 [c2_task]) 10).1 11)
      = ((process_next_task procs_fail true .Transcribe (mstate0 [c2_task]) 10).1,
         .ok false) := by
  decide

/-- C3: claiming the single pending task succeeds and returns it, but the
store ends with the task still `Pending`: `get_next_task` first updates
the row to Processing, then upserts its stale local copy (whose status
field is still the claimed Pending), clobbering the update.  The second
half of the claim holds at this input: a second sequential claim returns
nothing, because the in-memory processing map still tracks the task. -/
theorem c3_claimed_task_left_pending_in_store :
    ((get_next_task (mstate0 [c2_task]) 5).2).map Task.id = some "task-0" ∧
    (store_get (get_next_task (mstate0 [c2_task]) 5).1.store "task-0").map Task.status
      = some .Pending ∧
    (store_get (get_next_task (mstate0 [c2_task]) 5).1.store "task-0").map Task.status
      ≠ some .Processing ∧
    (get_next_task (get_next_task (mstate0 [c2_task]) 5).1 6).2 = none := by
  decide

/-- C4: (1) `handle_callback` never touches the store, so firing — or
failing to fire — a callback cannot undo a persisted terminal state;
(2) on the success path the worker persists Completed and exactly one
HTTP callback fires, whatever the POST outcome; (3) on the failure path a
terminal `Failed` state is persisted but no callback fires at all — the
worker's error branch never calls `handle_callback`. -/
theorem c4_failed_transition_fires_no_callback :
    (∀ (hok : Bool) (st : MState) (t : Task),
       ((handle_callback hok st t).1).store = st.store) ∧
    (∀ hok : Bool,
       (store_get (process_next_task procs_ok hok .Transcribe (mstate0 [c2_task]) 10).1.store
           "task-0").map Task.status = some .Completed ∧
       (process_next_task procs_ok hok .Transcribe (mstate0 [c2_task]) 10).1.events
         = [.http_post "http://cb" "task-0" .Completed]) ∧
    ((store_get (process_next_task procs_fail true .Transcribe (mstate0 [c2_task]) 10).1.store
        "task-0").map Task.status = some (.Failed "Task processing failed") ∧
     (process_next_task procs_fail true .Transcribe (mstate0 [c2_task]) 10).1.events = []) := by
  refine ⟨?_, ?_, ?_⟩
  · intro hok st t
    unfold handle_callback
    rcases t with ⟨id, status, config, _, _, _, _, _, _⟩
    rcases config with ⟨_, _, cb, _, _, _, _, _⟩
    cases cb <;> cases status <;> simp <;> split <;> simp
  · intro hok
    cases hok <;> exact (by decide)
  · decide

/-- C4 witness: the success-path facts at the concrete input with a
failing HTTP POST — the persisted state is still Completed and the single
callback was fired. -/
theorem c4_failed_transition_fires_no_callback_witness :
    (store_get (process_next_task procs_ok false .Transcribe (mstate0 [c2_task]) 10).1.store
        "task-0").map Task.status = some .Completed ∧
    (process_next_task procs_ok false .Transcribe (mstate0 [c2_task]) 10).1.events
      = [.http_post "http://cb" "task-0" .Completed] :=
  c4_failed_transition_fires_no_callback.2.1 false

/-- C8 counterexample: a worker bound to Transcribe polls a store whose
only pending task is a NoiseReduction task.  The claim says the claimed
task is marked Processing in the store; in fact, after the poll the store
still records it as Pending (the claim-time upsert of the stale task
overwrote the Processing update). -/
theorem c8_counterexample_store_not_processing :
    (process_next_task procs_fail true .Transcribe (mstate0 [c8_task]) 7).2 = .ok false ∧
    (store_get (process_next_task procs_fail true .Transcribe (mstate0 [c8_task]) 7).1.store
        "task-n").map Task.status = some .Pending ∧
    (store_get (process_next_task procs_fail true .Transcribe (mstate0 [c8_task]) 7).1.store
        "task-n").map Task.status ≠ some .Processing := by
  decide

/-- C8 amended: `get_next_task` ignores the worker's kind and claims the
globally best pending task; it marks it Processing in the in-memory map
(the store update to Processing is immediately clobbered back to Pending
by the upsert of the stale task).  The mismatched worker returns Ok(false)
without processing the task and without resetting its in-memory status, so
the task is never run, fires nothing, and a further poll — by the same or
any other worker sharing this manager — finds nothing claimable: the task
is stuck. -/
theorem c8_amended_kind_mismatch_leaves_task_stuck :
    (process_next_task procs_fail true .Transcribe (mstate0 [c8_task]) 7).2 = .ok false ∧
    ((process_next_task procs_fail true .Transcribe (mstate0 [c8_task]) 7).1.processing.lookup
        "task-n").map ProcInfo.status = some .Processing ∧
    (store_get (process_next_task procs_fail true .Transcribe (mstate0 [c8_task]) 7).1.store
        "task-n").map (fun t => (t.status, t.result)) = some (.Pending, none) ∧
    (process_next_task procs_fail true .Transcribe (mstate0 [c8_task]) 7).1.events = [] ∧
    (process_next_task procs_fail true .Transcribe
        (process_next_task procs_fail true .Transcribe (mstate0 [c8_task]) 7).1 8)
      = ((process_next_task procs_fail true .Transcribe (mstate0 [c8_task]) 7).1,
         .ok false) ∧
    (process_next_task procs_fail true .NoiseReduction
        (process_next_task procs_fail true .Transcribe (mstate0 [c8_task]) 7).1 8).2
      = .ok false := by
  decide

/-! ## Auth fixtures and claims -/

/-- The state after `create_api_key("Rate Limited Key", [Transcribe],
rpm=2, ...)` at time 0, as in the repo's own rate-limit test. -/
def c6_state : AuthState :=
  (create_api_key { keys := [], limiters := [], stats := [] }
    "key-6" "Rate Limited Key" [.Transcribe]
    { requests_per_minute := 2, requests_per_hour := 1000, requests_per_day := 10000 }
    none 0).2

/-- C6: with `requests_per_minute = 2`, two immediate `verify` calls
succeed, the third immediate call returns RateLimitExceeded, and a call
65 seconds later succeeds again — the behavior of a token bucket of
capacity 2 refilled at 2/60 tokens per second. -/
theorem c6_rate_limit_two_per_minute_scenario :
    (verify_api_key c6_state (some "key-6") .Transcribe 0).1 = .ok ∧
    (verify_api_key
      (verify_api_key c6_state (some "key-6") .Transcribe 0).2
      (some "key-6") .Transcribe 0).1 = .ok ∧
    (verify_api_key
      (verify_api_key
        (verify_api_key c6_state (some "key-6") .Transcribe 0).2
        (some "key-6") .Transcribe 0).2
      (some "key-6") .Transcribe 0).1 = .err .RateLimitExceeded ∧
    (verify_api_key
      (verify_api_key
        (verify_api_key
          (verify_api_key c6_state (some "key-6") .Transcribe 0).2
          (some "key-6") .Transcribe 0).2
        (some "key-6") .Transcribe 0).2
      (some "key-6") .Transcribe 65).1 = .ok := by
  decide

/-- C9: `handle_callback` for an Event-type task in a terminal Completed
or Failed state clones the manager's `EventCallback`; the hand-written
`Clone` fabricates a brand-new broadcast channel, so the send happens on a
channel no receiver is subscribed to: it errs, and every receiver in the
world — in particular the one returned by `EventCallback::new` — receives
nothing. -/
theorem c9_event_callback_clone_loses_subscribers
    (hok : Bool) (st : MState) (t : Task)
    (hwf : ∀ r ∈ st.world.receivers, r.chan < st.world.next_chan)
    (hcb : t.config.callback_type = .Event)
    (hst : t.status = .Completed ∨ ∃ e, t.status = .Failed e) :
    ((handle_callback hok st t).1).world.receivers = st.world.receivers ∧
    (handle_callback hok st t).2 = .error "broadcast send: no receivers" := by
  have hany : st.world.receivers.any (fun r => r.chan = st.world.next_chan) = false := by
    rw [List.any_eq_false]
    intro r hr
    simp only [decide_eq_true_eq]
    exact Nat.ne_of_lt (hwf r hr)
  rcases hst with hC | ⟨e, hF⟩
  · simp [handle_callback, hcb, hC, event_callback_clone, broadcast_send, hany]
  · simp [handle_callback, hcb, hF, event_callback_clone, broadcast_send, hany]

/-- C9 witness: the concrete manager state of `TaskManager::new` (whose
`event_callback` was created by `EventCallback::new` as channel 0 with one
subscribed receiver) and a completed Event-type task. -/
theorem c9_event_callback_clone_loses_subscribers_witness :
    ((handle_callback true (mstate0 [])
        { fixture_task "t9" 0 (fixture_config .Transcribe .Event .Normal 3) with
          status := .Completed, result := some (.Transcribe "x") }).1).world.receivers
      = (mstate0 []).world.receivers ∧
    (handle_callback true (mstate0 [])
        { fixture_task "t9" 0 (fixture_config .Transcribe .Event .Normal 3) with
          status := .Completed, result := some (.Transcribe "x") }).2
      = .error "broadcast send: no receivers" :=
  c9_event_callback_clone_loses_subscribers true (mstate0 [])
    { fixture_task "t9" 0 (fixture_config .Transcribe .Event .Normal 3) with
      status := .Completed, result := some (.Transcribe "x") }
    (by decide) (by decide) (Or.inl rfl)

/-- C10: `verify_api_key` builds the per-key limiter with
`NonZeroU32::new(rate_limit.requests_per_minute).unwrap()`.  (1) When
every stored key has `requests_per_minute ≥ 1` no call can panic; (2) the
first verify call that reaches the limiter for a key with
`requests_per_minute = 0` — the key exists, is Active and unexpired, and
grants the required permission — panics instead of returning an
`AuthError`. -/
theorem c10_rpm_zero_key_panics :
    (∀ (st : AuthState) (key : Option String) (perm : Permission) (now : Nat),
       (∀ k info, st.keys.lookup k = some info →
          1 ≤ info.rate_limit.requests_per_minute) →
       (verify_api_key st key perm now).1 ≠ .panicked) ∧
    (∀ (st : AuthState) (raw : String) (perm : Permission) (now : Nat)
       (info : ApiKeyInfo),
       st.keys.lookup (last_space_token raw) = some info →
       info.status = .Active →
       expired_at info.expires_at now = false →
       perm ∈ info.permissions →
       st.limiters.lookup (last_space_token raw) = none →
       info.rate_limit.requests_per_minute = 0 →
       (verify_api_key st (some raw) perm now).1 = .panicked) := by
  constructor
  · intro st key perm now hmin
    cases key with
    | none => simp [verify_api_key]
    | some raw =>
      cases hlk : st.keys.lookup (last_space_token raw) with
      | none => simp [verify_api_key, hlk]
      | some info =>
        have h1 := hmin (last_space_token raw) info hlk
        cases hstat : info.status with
        | Suspended => simp [verify_api_key, hlk, hstat]
        | Expired => simp [verify_api_key, hlk, hstat]
        | Active =>
          simp only [verify_api_key, hlk, hstat]
          split
          · simp
          · split
            · simp
            · cases hlim : st.limiters.lookup (last_space_token raw) with
              | some b =>
                simp only [hlim]
                split <;> simp
              | none =>
                simp only [hlim]
                have h0 : ¬ info.rate_limit.requests_per_minute = 0 := by omega
                simp only [h0, if_false]
                split <;> simp
  · intro st raw perm now info hlk hstat hexp hperm hlim h0
    simp [verify_api_key, hlk, hstat, hexp, hperm, hlim, h0]

def c10_info : ApiKeyInfo :=
  { key := "key-z"
    name := "Zero RPM"
    created_at := 0
    expires_at := none
    permissions := [.Transcribe]
    rate_limit := { requests_per_minute := 0, requests_per_hour := 1000,
                    requests_per_day := 10000 }
    status := .Active }

def c10_state : AuthState :=
  { keys := [("key-z", c10_info)], limiters := [], stats := [] }

/-- C10 witness: the concrete zero-rpm key panics on its first verify. -/
theorem c10_rpm_zero_key_panics_witness :
    (verify_api_key c10_state (some "key-z") .Transcribe 0).1 = .panicked :=
  c10_rpm_zero_key_panics.2 c10_state "key-z" .Transcribe 0 c10_info
    (by decide) rfl rfl (by decide) (by decide) rfl

/-- C7: `verify_api_key` realizes the spec's check ladder — it returns
exactly what the spec's ordered steps dictate (absent key, unknown key,
Suspended, Expired-or-past-expiry, missing permission, bucket refusal, in
that order) — and the key's usage stats are updated exactly on the Ok
outcome.  The hypothesis that every stored key has
`requests_per_minute ≥ 1` excludes the `NonZeroU32` panic path, which the
spec's ladder does not describe (claim C10 covers it). -/
theorem c7_verify_order_and_stats
    (st : AuthState) (api_key : Option String) (perm : Permission) (now : Nat)
    (hmin : ∀ k info, st.keys.lookup k = some info →
      1 ≤ info.rate_limit.requests_per_minute) :
    (verify_api_key st api_key perm now).1 = spec_verify st api_key perm now ∧
    ((verify_api_key st api_key perm now).1 ≠ .ok →
      ((verify_api_key st api_key perm now).2).stats = st.stats) ∧
    ((verify_api_key st api_key perm now).1 = .ok →
      ∃ k info, st.keys.lookup k = some info ∧
        ((verify_api_key st api_key perm now).2).stats = stats_bump st.stats k now) := by
  cases api_key with
  | none =>
    refine ⟨rfl, fun _ => rfl, fun h => ?_⟩
    simp [verify_api_key] at h
  | some raw =>
    cases hlk : List.lookup (last_space_token raw) st.keys with
    | none =>
      have hv : verify_api_key st (some raw) perm now = (.err .InvalidApiKey, st) := by
        simp [verify_api_key, hlk]
      have hs : spec_verify st (some raw) perm now = .err .InvalidApiKey := by
        simp [spec_verify, hlk]
      rw [hv, hs]
      exact ⟨rfl, fun _ => rfl, fun h => by simp at h⟩
    | some info =>
      cases hstat : info.status with
      | Suspended =>
        have hv : verify_api_key st (some raw) perm now = (.err .KeySuspended, st) := by
          simp [verify_api_key, hlk, hstat]
        have hs : spec_verify st (some raw) perm now = .err .KeySuspended := by
          simp [spec_verify, hlk, hstat]
        rw [hv, hs]
        exact ⟨rfl, fun _ => rfl, fun h => by simp at h⟩
      | Expired =>
        have hv : verify_api_key st (some raw) perm now = (.err .KeyExpired, st) := by
          simp [verify_api_key, hlk, hstat]
        have hs : spec_verify st (some raw) perm now = .err .KeyExpired := by
          simp [spec_verify, hlk, hstat]
        rw [hv, hs]
        exact ⟨rfl, fun _ => rfl, fun h => by simp at h⟩
      | Active =>
        by_cases hexp : expired_at info.expires_at now
        · have hv : verify_api_key st (some raw) perm now = (.err .KeyExpired, st) := by
            simp [verify_api_key, hlk, hstat, hexp]
          have hs : spec_verify st (some raw) perm now = .err .KeyExpired := by
            simp [spec_verify, hlk, hstat, hexp]
          rw [hv, hs]
          exact ⟨rfl, fun _ => rfl, fun h => by simp at h⟩
        · by_cases hp : perm ∈ info.permissions
          · cases hlim : List.lookup (last_space_token raw) st.limiters with
            | some b =>
              rcases hbc : bucket_check info.rate_limit.requests_per_minute b now
                with ⟨b', allowed⟩
              cases allowed with
              | false =>
                have hv : verify_api_key st (some raw) perm now
                    = (.err .RateLimitExceeded,
                       { st with limiters := st.limiters.map (fun p => if p.1 = last_space_token raw then (p.1, b') else p) }) := by
                  simp [verify_api_key, hlk, hstat, hexp, hp, hlim, hbc]
                have hs : spec_verify st (some raw) perm now = .err .RateLimitExceeded := by
                  simp [spec_verify, hlk, hstat, hexp, hp, hlim, hbc]
                rw [hv, hs]
                exact ⟨rfl, fun _ => rfl, fun h => by simp at h⟩
              | true =>
                have hv : verify_api_key st (some raw) perm now
                    = (.ok, auth_update_key_stats { st with limiters := st.limiters.map (fun p => if p.1 = last_space_token raw then (p.1, b') else p) } (last_space_token raw) now) := by
                  simp [verify_api_key, hlk, hstat, hexp, hp, hlim, hbc]
                have hs : spec_verify st (some raw) perm now = .ok := by
                  simp [spec_verify, hlk, hstat, hexp, hp, hlim, hbc]
                rw [hv, hs]
                refine ⟨rfl, fun h => absurd rfl h, fun _ => ?_⟩
                exact ⟨last_space_token raw, info, hlk, rfl⟩
            | none =>
              have h1 : 1 ≤ info.rate_limit.requests_per_minute :=
                hmin (last_space_token raw) info hlk
              have h0 : ¬ info.rate_limit.requests_per_minute = 0 := by omega
              rcases hbc : bucket_check info.rate_limit.requests_per_minute
                  (bucket_new info.rate_limit.requests_per_minute now) now
                with ⟨b', allowed⟩
              cases allowed with
              | false =>
                have hv : verify_api_key st (some raw) perm now
                    = (.err .RateLimitExceeded,
                       { st with limiters := st.limiters ++ [(last_space_token raw, b')] }) := by
                  simp [verify_api_key, hlk, hstat, hexp, hp, hlim, h0, hbc]
                have hs : spec_verify st (some raw) perm now = .err .RateLimitExceeded := by
                  simp [spec_verify, hlk, hstat, hexp, hp, hlim, hbc]
                rw [hv, hs]
                exact ⟨rfl, fun _ => rfl, fun h => by simp at h⟩
              | true =>
                have hv : verify_api_key st (some raw) perm now
                    = (.ok, auth_update_key_stats
                        { st with limiters := st.limiters ++ [(last_space_token raw, b')] }
                        (last_space_token raw) now) := by
                  simp [verify_api_key, hlk, hstat, hexp, hp, hlim, h0, hbc]
                have hs : spec_verify st (some raw) perm now = .ok := by
                  simp [spec_verify, hlk, hstat, hexp, hp, hlim, hbc]
                rw [hv, hs]
                refine ⟨rfl, fun h => absurd rfl h, fun _ => ?_⟩
                exact ⟨last_space_token raw, info, hlk, rfl⟩
          · have hv : verify_api_key st (some raw) perm now
                = (.err .InsufficientPermissions, st) := by
              simp [verify_api_key, hlk, hstat, hexp, hp]
            have hs : spec_verify st (some raw) perm now = .err .InsufficientPermissions := by
              simp [spec_verify, hlk, hstat, hexp, hp]
            rw [hv, hs]
            exact ⟨rfl, fun _ => rfl, fun h => by simp at h⟩

/-- Every key stored in `c6_state` has `requests_per_minute ≥ 1`. -/
theorem c6_state_rpm_min (k : String) (info : ApiKeyInfo)
    (h : c6_state.keys.lookup k = some info) :
    1 ≤ info.rate_limit.requests_per_minute := by
  simp only [c6_state, create_api_key, List.lookup] at h
  split at h
  · cases h
    decide
  · cases h

/-- C7 witness: the ladder agreement and stats facts at the concrete
rpm-2 key state. -/
theorem c7_verify_order_and_stats_witness :
    (verify_api_key c6_state (some "key-6") .Transcribe 0).1
      = spec_verify c6_state (some "key-6") .Transcribe 0 ∧
    ((verify_api_key c6_state (some "key-6") .Transcribe 0).1 ≠ .ok →
      ((verify_api_key c6_state (some "key-6") .Transcribe 0).2).stats = c6_state.stats) ∧
    ((verify_api_key c6_state (some "key-6") .Transcribe 0).1 = .ok →
      ∃ k info, c6_state.keys.lookup k = some info ∧
        ((verify_api_key c6_state (some "key-6") .Transcribe 0).2).stats
          = stats_bump c6_state.stats k 0) :=
  c7_verify_order_and_stats c6_state (some "key-6") .Transcribe 0 c6_state_rpm_min

end Asr
